import Mathlib

/-!
# Verification of the distributed EHR node against its design specification

Shallow embedding of the Python sources:
  * `src/ehr-crud-service/models.py`        — the pydantic/Beanie data model
  * `src/ehr-crud-service/crud_service.py`  — repository operations
  * `src/ehr-crud-service/grpc_server.py`   — wire codec and RPC handlers
  * `src/api-gateway-service/main.py`       — HTTP routes and status mapping
  * `src/api-gateway-service/grpc_client.py`— the gateway's gRPC client
  * `src/auth/auth.py`, `src/auth/routes.py`— role gate and claim set

Python `date` / `datetime` values are modelled by explicit calendar records
(`PDate`, `PDateTime`); `datetime` is modelled at second precision and without
an explicit zone offset (microseconds and offsets travel through
`isoformat` / `fromisoformat` the same way and no claim depends on them).
Python dicts/lists passing through the protobuf `Struct` encoding are
modelled by the `JVal` tree.
-/

/-! ## Calendar dates (Python `datetime.date`) -/

/-- The character for a single decimal digit, as produced by `%d` formatting. -/
def digitChar (n : Nat) : Char := Char.ofNat (48 + n)

theorem digitChar_spec (n : Nat) (h : n < 10) :
    (digitChar n).isDigit = true ∧ (digitChar n).toNat = 48 + n := by
  interval_cases n <;> exact ⟨by decide, by decide⟩

/-- A calendar date as Python's `datetime.date`: a (year, month, day) triple. -/
structure PDate where
  year : Nat
  month : Nat
  day : Nat
deriving DecidableEq, Repr

namespace PDate

/-- Gregorian leap-year rule, as used by Python's `datetime` module. -/
def isLeapYear (y : Nat) : Bool := y % 4 == 0 && (y % 100 != 0 || y % 400 == 0)

def daysInMonth (y m : Nat) : Nat :=
  if m == 2 then (if isLeapYear y then 29 else 28)
  else if m == 4 || m == 6 || m == 9 || m == 11 then 30
  else 31

theorem daysInMonth_le (y m : Nat) : daysInMonth y m ≤ 31 := by
  unfold daysInMonth; split_ifs <;> omega

/-- The range Python's `datetime.date` accepts (MINYEAR = 1, MAXYEAR = 9999). -/
def Valid (d : PDate) : Prop :=
  1 ≤ d.year ∧ d.year ≤ 9999 ∧ 1 ≤ d.month ∧ d.month ≤ 12 ∧
    1 ≤ d.day ∧ d.day ≤ daysInMonth d.year d.month

instance (d : PDate) : Decidable d.Valid := by unfold Valid; infer_instance

/-- Models `date.isoformat()`: zero-padded `YYYY-MM-DD`. -/
def toIso (d : PDate) : String :=
  String.mk [digitChar (d.year / 1000), digitChar (d.year / 100 % 10),
             digitChar (d.year / 10 % 10), digitChar (d.year % 10), '-',
             digitChar (d.month / 10), digitChar (d.month % 10), '-',
             digitChar (d.day / 10), digitChar (d.day % 10)]

/-- The `date(...)` constructor: range-checks year, month and day. -/
def ofParts (y m d : Nat) : Option PDate :=
  if 1 ≤ y ∧ y ≤ 9999 ∧ 1 ≤ m ∧ m ≤ 12 ∧ 1 ≤ d ∧ d ≤ daysInMonth y m then
    some ⟨y, m, d⟩
  else none

/-- Models `date.fromisoformat`: parses zero-padded `YYYY-MM-DD` (the only shape this
    system's `isoformat` calls produce) and range-checks the parts; anything
    else raises `ValueError`, modelled as `none`. -/
def fromIso (s : String) : Option PDate :=
  match s.data with
  | [y1, y2, y3, y4, '-', m1, m2, '-', d1, d2] =>
    if y1.isDigit && y2.isDigit && y3.isDigit && y4.isDigit &&
       m1.isDigit && m2.isDigit && d1.isDigit && d2.isDigit then
      ofParts (((y1.toNat - 48) * 10 + (y2.toNat - 48)) * 10 * 10 +
                 (y3.toNat - 48) * 10 + (y4.toNat - 48))
              ((m1.toNat - 48) * 10 + (m2.toNat - 48))
              ((d1.toNat - 48) * 10 + (d2.toNat - 48))
    else none
  | _ => none

/-- Parsing is a left inverse of printing on every representable date. -/
theorem fromIso_toIso_date (d : PDate) (h : d.Valid) : fromIso d.toIso = some d := by
  obtain ⟨h1, h2, h3, h4, h5, h6⟩ := h
  have hdm := daysInMonth_le d.year d.month
  have e1 := digitChar_spec (d.year / 1000) (by omega)
  have e2 := digitChar_spec (d.year / 100 % 10) (by omega)
  have e3 := digitChar_spec (d.year / 10 % 10) (by omega)
  have e4 := digitChar_spec (d.year % 10) (by omega)
  have e5 := digitChar_spec (d.month / 10) (by omega)
  have e6 := digitChar_spec (d.month % 10) (by omega)
  have e7 := digitChar_spec (d.day / 10) (by omega)
  have e8 := digitChar_spec (d.day % 10) (by omega)
  have hy : ((48 + d.year / 1000 - 48) * 10 + (48 + d.year / 100 % 10 - 48)) * 10 * 10 +
      (48 + d.year / 10 % 10 - 48) * 10 + (48 + d.year % 10 - 48) = d.year := by omega
  have hm : (48 + d.month / 10 - 48) * 10 + (48 + d.month % 10 - 48) = d.month := by omega
  have hd : (48 + d.day / 10 - 48) * 10 + (48 + d.day % 10 - 48) = d.day := by omega
  simp only [fromIso, toIso, e1.1, e2.1, e3.1, e4.1, e5.1, e6.1, e7.1, e8.1,
    e1.2, e2.2, e3.2, e4.2, e5.2, e6.2, e7.2, e8.2, Bool.and_self, if_true, hy, hm, hd]
  simp [ofParts, h1, h2, h3, h4, h5, h6]

end PDate

/-! ## Timestamps (Python `datetime.datetime`) -/

/-- Python's `datetime.datetime`, at second precision (see the header note). -/
structure PDateTime where
  date : PDate
  hour : Nat
  minute : Nat
  second : Nat
deriving DecidableEq, Repr

namespace PDateTime

def Valid (t : PDateTime) : Prop :=
  t.date.Valid ∧ t.hour ≤ 23 ∧ t.minute ≤ 59 ∧ t.second ≤ 59

instance (t : PDateTime) : Decidable t.Valid := by unfold Valid; infer_instance

/-- Models `datetime.isoformat()`: `YYYY-MM-DDTHH:MM:SS`. -/
def toIso (t : PDateTime) : String :=
  String.mk [digitChar (t.date.year / 1000), digitChar (t.date.year / 100 % 10),
             digitChar (t.date.year / 10 % 10), digitChar (t.date.year % 10), '-',
             digitChar (t.date.month / 10), digitChar (t.date.month % 10), '-',
             digitChar (t.date.day / 10), digitChar (t.date.day % 10), 'T',
             digitChar (t.hour / 10), digitChar (t.hour % 10), ':',
             digitChar (t.minute / 10), digitChar (t.minute % 10), ':',
             digitChar (t.second / 10), digitChar (t.second % 10)]

/-- Models `datetime.fromisoformat` on the canonical shape `isoformat` emits;
    any other string raises `ValueError`, modelled as `none`. -/
def fromIso (s : String) : Option PDateTime :=
  match s.data with
  | [y1, y2, y3, y4, '-', m1, m2, '-', d1, d2, 'T', h1, h2, ':', n1, n2, ':', s1, s2] =>
    if y1.isDigit && y2.isDigit && y3.isDigit && y4.isDigit &&
       m1.isDigit && m2.isDigit && d1.isDigit && d2.isDigit &&
       h1.isDigit && h2.isDigit && n1.isDigit && n2.isDigit &&
       s1.isDigit && s2.isDigit then
      match PDate.ofParts (((y1.toNat - 48) * 10 + (y2.toNat - 48)) * 10 * 10 +
                             (y3.toNat - 48) * 10 + (y4.toNat - 48))
                          ((m1.toNat - 48) * 10 + (m2.toNat - 48))
                          ((d1.toNat - 48) * 10 + (d2.toNat - 48)) with
      | some dd =>
        let hh := (h1.toNat - 48) * 10 + (h2.toNat - 48)
        let nn := (n1.toNat - 48) * 10 + (n2.toNat - 48)
        let ss := (s1.toNat - 48) * 10 + (s2.toNat - 48)
        if hh ≤ 23 ∧ nn ≤ 59 ∧ ss ≤ 59 then some ⟨dd, hh, nn, ss⟩ else none
      | none => none
    else none
  | _ => none

/-- Parsing is a left inverse of printing on every representable timestamp. -/
theorem fromIso_toIso_datetime (t : PDateTime) (h : t.Valid) : fromIso t.toIso = some t := by
  obtain ⟨⟨h1, h2, h3, h4, h5, h6⟩, hh, hn, hs⟩ := h
  have hdm := PDate.daysInMonth_le t.date.year t.date.month
  have e1 := digitChar_spec (t.date.year / 1000) (by omega)
  have e2 := digitChar_spec (t.date.year / 100 % 10) (by omega)
  have e3 := digitChar_spec (t.date.year / 10 % 10) (by omega)
  have e4 := digitChar_spec (t.date.year % 10) (by omega)
  have e5 := digitChar_spec (t.date.month / 10) (by omega)
  have e6 := digitChar_spec (t.date.month % 10) (by omega)
  have e7 := digitChar_spec (t.date.day / 10) (by omega)
  have e8 := digitChar_spec (t.date.day % 10) (by omega)
  have e9 := digitChar_spec (t.hour / 10) (by omega)
  have e10 := digitChar_spec (t.hour % 10) (by omega)
  have e11 := digitChar_spec (t.minute / 10) (by omega)
  have e12 := digitChar_spec (t.minute % 10) (by omega)
  have e13 := digitChar_spec (t.second / 10) (by omega)
  have e14 := digitChar_spec (t.second % 10) (by omega)
  have hy : ((48 + t.date.year / 1000 - 48) * 10 + (48 + t.date.year / 100 % 10 - 48)) * 10 * 10 +
      (48 + t.date.year / 10 % 10 - 48) * 10 + (48 + t.date.year % 10 - 48) = t.date.year := by
    omega
  have hm : (48 + t.date.month / 10 - 48) * 10 + (48 + t.date.month % 10 - 48) = t.date.month := by
    omega
  have hd : (48 + t.date.day / 10 - 48) * 10 + (48 + t.date.day % 10 - 48) = t.date.day := by
    omega
  have hh' : (48 + t.hour / 10 - 48) * 10 + (48 + t.hour % 10 - 48) = t.hour := by omega
  have hn' : (48 + t.minute / 10 - 48) * 10 + (48 + t.minute % 10 - 48) = t.minute := by omega
  have hs' : (48 + t.second / 10 - 48) * 10 + (48 + t.second % 10 - 48) = t.second := by omega
  simp only [fromIso, toIso, e1.1, e2.1, e3.1, e4.1, e5.1, e6.1, e7.1, e8.1, e9.1, e10.1,
    e11.1, e12.1, e13.1, e14.1, e1.2, e2.2, e3.2, e4.2, e5.2, e6.2, e7.2, e8.2, e9.2,
    e10.2, e11.2, e12.2, e13.2, e14.2, Bool.and_self, if_true, hy, hm, hd, hh', hn', hs']
  simp [PDate.ofParts, h1, h2, h3, h4, h5, h6, hh, hn, hs]

end PDateTime

/-! ## Dynamic values crossing the wire (`google.protobuf.Struct` / Python dicts)

`JVal` models the Python values that flow through `dict_to_struct`,
`MessageToDict` and `parse_dates_recursive` in `grpc_server.py`: JSON leaves
plus the hydrated `date`/`datetime` objects the parser produces. -/

inductive JVal where
  | null
  | bool (b : Bool)
  | num (n : Int)
  | str (s : String)
  | date (d : PDate)
  | datetime (t : PDateTime)
  | arr (items : List JVal)
  | obj (fields : List (String × JVal))
deriving Repr

/-- The datetime-typed field names of `parse_dates_recursive`
    (`grpc_server.py` line 35). -/
def datetimeKeys : List String := ["start", "end", "recordedAt", "grantedAt"]

mutual
/-- Models `grpc_server.parse_dates_recursive`: walks a decoded payload and re-hydrates
    date-typed fields by field name; everything else passes through unchanged. -/
def parse_dates_recursive : JVal → JVal
  | .obj fields => .obj (parseFields fields)
  | .arr items => .arr (parseItems items)
  | v => v

/-- One dict: each entry through `parseField`, insertion order kept. -/
def parseFields : List (String × JVal) → List (String × JVal)
  | [] => []
  | (k, v) :: rest => (k, parseField k v) :: parseFields rest

/-- One dict entry: the `if key == 'dob' ... elif key in [...] ... else` chain.
    A registered key whose value is a string is parsed, keeping the string on
    `ValueError`; any other entry recurses. -/
def parseField (k : String) (v : JVal) : JVal :=
  if k = "dob" then
    match v with
    | .str s =>
      match PDate.fromIso s with
      | some d => .date d
      | none => .str s
    | v => parse_dates_recursive v
  else if k ∈ datetimeKeys then
    match v with
    | .str s =>
      match PDateTime.fromIso s with
      | some t => .datetime t
      | none => .str s
    | v => parse_dates_recursive v
  else parse_dates_recursive v

def parseItems : List JVal → List JVal
  | [] => []
  | v :: rest => parse_dates_recursive v :: parseItems rest
end

/-! Pass-through behaviour on leaves, and evaluation lemmas used below. -/

@[simp] theorem parse_null : parse_dates_recursive .null = .null := by
  simp [parse_dates_recursive]

@[simp] theorem parse_bool (b : Bool) : parse_dates_recursive (.bool b) = .bool b := by
  simp [parse_dates_recursive]

@[simp] theorem parse_num (n : Int) : parse_dates_recursive (.num n) = .num n := by
  simp [parse_dates_recursive]

@[simp] theorem parse_str (s : String) : parse_dates_recursive (.str s) = .str s := by
  simp [parse_dates_recursive]

@[simp] theorem parse_date (d : PDate) : parse_dates_recursive (.date d) = .date d := by
  simp [parse_dates_recursive]

@[simp] theorem parse_datetime (t : PDateTime) :
    parse_dates_recursive (.datetime t) = .datetime t := by
  simp [parse_dates_recursive]

@[simp] theorem parse_obj (fields : List (String × JVal)) :
    parse_dates_recursive (.obj fields) = .obj (parseFields fields) := by
  simp [parse_dates_recursive]

@[simp] theorem parse_arr (items : List JVal) :
    parse_dates_recursive (.arr items) = .arr (parseItems items) := by
  simp [parse_dates_recursive]

@[simp] theorem parseFields_nil : parseFields [] = [] := by simp [parseFields]

@[simp] theorem parseFields_cons (k : String) (v : JVal) (rest : List (String × JVal)) :
    parseFields ((k, v) :: rest) = (k, parseField k v) :: parseFields rest := by
  rw [parseFields]

@[simp] theorem parseItems_nil : parseItems [] = [] := by simp [parseItems]

@[simp] theorem parseItems_cons (v : JVal) (rest : List JVal) :
    parseItems (v :: rest) = parse_dates_recursive v :: parseItems rest := by
  rw [parseItems]

/-- An unregistered key is not parsed: the entry just recurses into its value. -/
theorem parseField_unregistered (k : String) (v : JVal)
    (h1 : k ≠ "dob") (h2 : k ∉ datetimeKeys) :
    parseField k v = parse_dates_recursive v := by
  cases v <;> (rw [parseField] <;> simp [h1, h2])

/-- A `dob` entry holding a printable date is re-hydrated. -/
theorem parseField_dob (d : PDate) (h : d.Valid) :
    parseField "dob" (.str d.toIso) = .date d := by
  rw [parseField]
  simp [PDate.fromIso_toIso_date d h]

/-- A `dob` entry whose string does not parse stays a string. -/
theorem parseField_dob_bad (s : String) (h : PDate.fromIso s = none) :
    parseField "dob" (.str s) = .str s := by
  rw [parseField]
  simp [h]

/-- A registered datetime entry holding a printable timestamp is re-hydrated. -/
theorem parseField_datetime (k : String) (hk : k ∈ datetimeKeys)
    (t : PDateTime) (h : t.Valid) :
    parseField k (.str t.toIso) = .datetime t := by
  have hkdob : k ≠ "dob" := by
    intro he; subst he; simp [datetimeKeys] at hk
  rw [parseField]
  simp [hkdob, hk, PDateTime.fromIso_toIso_datetime t h]

/-- A registered datetime entry whose string does not parse stays a string. -/
theorem parseField_datetime_bad (k : String) (hk : k ∈ datetimeKeys)
    (s : String) (h : PDateTime.fromIso s = none) :
    parseField k (.str s) = .str s := by
  have hkdob : k ≠ "dob" := by
    intro he; subst he; simp [datetimeKeys] at hk
  rw [parseField]
  simp [hkdob, hk, h]

/-! ## The patient data model (`ehr-crud-service/models.py`)

Pydantic `Optional[...] = None` fields become `Option` fields (`none` = the
pydantic `None` default); `Field(default_factory=list)` becomes `[]`. The
internal `UUID` is modelled as an opaque `Nat`. `replicaVector: Dict[str, Any]`
is an opaque pass-through mapping; its values are modelled as strings. -/

structure IdentityInfo where
  patientId : String
  mrn : Option String := none
  nationalId : Option String := none
deriving DecidableEq, Repr

structure NameInfo where
  given : String
  family : String
deriving DecidableEq, Repr

structure Demographics where
  name : NameInfo
  dob : PDate
  sexAtBirth : Option String := none
  genderIdentity : Option String := none
  deceased : Bool := false
deriving DecidableEq, Repr

structure ContactInfo where
  address : Option String := none
  phone : Option String := none
  email : Option String := none
deriving DecidableEq, Repr

structure Encounter where
  encounterId : String
  type : String
  start : PDateTime
  finish : Option PDateTime := none  -- source field name: `end` (reserved in Lean)
  location : Option String := none
  provider : Option String := none
  reason : Option String := none
deriving DecidableEq, Repr

structure Condition where
  id : String
  code : Option String := none
  system : Option String := none
  description : String
  onset : Option PDate := none
  status : String := "active"
  recordedAt : PDateTime
  encounterId : Option String := none
deriving DecidableEq, Repr

structure Allergy where
  substance : String
  reaction : Option String := none
  severity : Option String := none
  status : String := "active"
  recordedAt : PDateTime
deriving DecidableEq, Repr

structure Medication where
  medId : String
  drug : String
  dose : Option String := none
  route : Option String := none
  frequency : Option String := none
  start : PDate
  finish : Option PDate := none  -- source field name: `end`
  prescriber : Option String := none
deriving DecidableEq, Repr

structure MedicationHistory where
  drug : String
  start : PDate
  finish : Option PDate := none  -- source field name: `end`
  reasonStopped : Option String := none
deriving DecidableEq, Repr

structure MedicationsInfo where
  active : List Medication := []
  history : List MedicationHistory := []
deriving DecidableEq, Repr

structure ConsentInfo where
  allowed : Bool := true
  scope : List String := []
  grantedAt : Option PDateTime := none
deriving DecidableEq, Repr

structure ConsentsInfo where
  dataSharing : Option ConsentInfo := none
deriving DecidableEq, Repr

structure MetaInfo where
  sourceHospital : String
  replicaVector : List (String × String) := []
deriving DecidableEq, Repr

/-- Input model for the create operation (`models.py` `PatientCreate`). -/
structure PatientCreate where
  identity : IdentityInfo
  demographics : Demographics
  contacts : Option ContactInfo := none
  sourceHospital : String
deriving DecidableEq, Repr

/-- Input model for the update operation (`models.py` `PatientUpdate`): every
    field optional; `none` models a field the caller did not supply (the gRPC
    handler builds this object from the request dict, so absent keys are unset,
    and `model_dump(exclude_unset=True)` drops exactly the `none` fields). -/
structure PatientUpdate where
  demographics : Option Demographics := none
  contacts : Option ContactInfo := none
  encounters : Option (List Encounter) := none
  conditions : Option (List Condition) := none
  allergies : Option (List Allergy) := none
  medications : Option MedicationsInfo := none
  consents : Option ConsentsInfo := none
deriving DecidableEq, Repr

/-- The stored patient document (`models.py` `Patient`, a Beanie `Document`). -/
structure Patient where
  id : Nat
  version : Int := 1
  lastUpdated : PDateTime
  identity : IdentityInfo
  demographics : Demographics
  contacts : Option ContactInfo := none
  conditions : List Condition := []
  allergies : List Allergy := []
  meta : MetaInfo
  created_at : PDateTime
  updated_at : PDateTime
deriving DecidableEq, Repr

/-! ## `model_dump` forms of the document sections

`patient_to_proto` serialises via `patient.model_dump(mode='json')`: nested
models become dicts in field-declaration order, `None` stays as JSON null and
dates/datetimes become their `isoformat()` strings. The `python`-mode dicts
(dates kept as objects) are the reference shape a faithful decode must restore. -/

/-- Models `None → null`, `str → str` — how an `Optional[str]` field is dumped. -/
def jOptStr : Option String → JVal
  | none => .null
  | some s => .str s

def IdentityInfo.dump (i : IdentityInfo) : JVal :=
  .obj [("patientId", .str i.patientId), ("mrn", jOptStr i.mrn),
        ("nationalId", jOptStr i.nationalId)]

def NameInfo.dump (n : NameInfo) : JVal :=
  .obj [("given", .str n.given), ("family", .str n.family)]

/-- Models `mode='json'`: `dob` serialised to its ISO string. -/
def Demographics.dumpJson (d : Demographics) : JVal :=
  .obj [("name", d.name.dump), ("dob", .str d.dob.toIso),
        ("sexAtBirth", jOptStr d.sexAtBirth), ("genderIdentity", jOptStr d.genderIdentity),
        ("deceased", .bool d.deceased)]

/-- Models `mode='python'`: `dob` kept as a `date` object. -/
def Demographics.dumpPy (d : Demographics) : JVal :=
  .obj [("name", d.name.dump), ("dob", .date d.dob),
        ("sexAtBirth", jOptStr d.sexAtBirth), ("genderIdentity", jOptStr d.genderIdentity),
        ("deceased", .bool d.deceased)]

def ContactInfo.dump (c : ContactInfo) : JVal :=
  .obj [("address", jOptStr c.address), ("phone", jOptStr c.phone),
        ("email", jOptStr c.email)]

/-- Models `mode='json'`: `onset` and `recordedAt` as ISO strings. -/
def Condition.dumpJson (c : Condition) : JVal :=
  .obj [("id", .str c.id), ("code", jOptStr c.code), ("system", jOptStr c.system),
        ("description", .str c.description),
        ("onset", c.onset.elim .null (fun d => .str d.toIso)),
        ("status", .str c.status), ("recordedAt", .str c.recordedAt.toIso),
        ("encounterId", jOptStr c.encounterId)]

/-- Models `mode='python'`: `onset` and `recordedAt` as date/datetime objects. -/
def Condition.dumpPy (c : Condition) : JVal :=
  .obj [("id", .str c.id), ("code", jOptStr c.code), ("system", jOptStr c.system),
        ("description", .str c.description),
        ("onset", c.onset.elim .null .date),
        ("status", .str c.status), ("recordedAt", .datetime c.recordedAt),
        ("encounterId", jOptStr c.encounterId)]

def Allergy.dumpJson (a : Allergy) : JVal :=
  .obj [("substance", .str a.substance), ("reaction", jOptStr a.reaction),
        ("severity", jOptStr a.severity), ("status", .str a.status),
        ("recordedAt", .str a.recordedAt.toIso)]

def MetaInfo.dump (m : MetaInfo) : JVal :=
  .obj [("sourceHospital", .str m.sourceHospital),
        ("replicaVector", .obj (m.replicaVector.map (fun kv => (kv.1, .str kv.2))))]

/-! ## The wire codec (`grpc_server.py`)

`patient_to_proto` builds an `ehr_service_pb2.PatientMessage`: scalar fields
plus one protobuf `Struct` per nested section and `ListValue`s for the clinical
arrays. `Struct`s round-trip `dict ↔ Struct` losslessly through
`dict_to_struct` / `MessageToDict`, so the struct-valued fields are modelled
directly as the dict (`JVal`) they carry. -/

/-- The `PatientMessage` built by `patient_to_proto`. -/
structure PatientMessage where
  id : String
  version : Int
  lastUpdated : String
  identity : JVal
  demographics : JVal
  contacts : JVal
  conditions : JVal
  allergies : JVal
  meta : JVal
  created_at : String
  updated_at : String
deriving Repr

/-- Models `grpc_server.patient_to_proto` (lines 71–92). Note the contacts field:
    `dict_to_struct(...) if patient_dict.get('contacts') else Struct()` — an
    absent contacts section is encoded as an *empty* struct. -/
def patient_to_proto (p : Patient) : PatientMessage where
  id := toString p.id
  version := p.version
  lastUpdated := p.lastUpdated.toIso
  identity := p.identity.dump
  demographics := p.demographics.dumpJson
  contacts := match p.contacts with
    | some c => c.dump
    | none => .obj []
  conditions := .arr (p.conditions.map Condition.dumpJson)
  allergies := .arr (p.allergies.map Allergy.dumpJson)
  meta := p.meta.dump
  created_at := p.created_at.toIso
  updated_at := p.updated_at.toIso

/-- The variable-shape sections of a decoded message. Decoding a wire payload
    is `MessageToDict` (identity on the carried dict) followed by
    `parse_dates_recursive` (§4.1's decode direction). -/
structure DecodedSections where
  identity : JVal
  demographics : JVal
  contacts : JVal
  conditions : JVal
  meta : JVal
deriving Repr

/-- Decode the schema-flexible sections of a `PatientMessage`. -/
def decode_sections (w : PatientMessage) : DecodedSections where
  identity := parse_dates_recursive w.identity
  demographics := parse_dates_recursive w.demographics
  contacts := parse_dates_recursive w.contacts
  conditions := parse_dates_recursive w.conditions
  meta := parse_dates_recursive w.meta

/-- The same sections read directly off the document (`mode='python'` dicts,
    dates hydrated); an absent contacts section is `None`. The round-trip
    property compares a decoded message against this. -/
def patient_sections_py (p : Patient) : DecodedSections where
  identity := p.identity.dump
  demographics := p.demographics.dumpPy
  contacts := p.contacts.elim .null ContactInfo.dump
  conditions := .arr (p.conditions.map Condition.dumpPy)
  meta := p.meta.dump

/-! ## How `parse_dates_recursive` acts on each encoded section -/

@[simp] theorem parse_jOptStr (o : Option String) :
    parse_dates_recursive (jOptStr o) = jOptStr o := by
  cases o <;> simp [jOptStr]

/-- An encoded identity section decodes to itself (none of its keys are in the
    date registry). -/
theorem decode_identity (i : IdentityInfo) :
    parse_dates_recursive i.dump = i.dump := by
  simp [IdentityInfo.dump, parseField_unregistered, datetimeKeys]

/-- An encoded name decodes to itself. -/
theorem decode_name (n : NameInfo) :
    parse_dates_recursive n.dump = n.dump := by
  simp [NameInfo.dump, parseField_unregistered, datetimeKeys]

/-- An encoded demographics section decodes to its hydrated (`mode='python'`)
    form: the `dob` string is re-hydrated to the date object. -/
theorem decode_demographics (d : Demographics) (h : d.dob.Valid) :
    parse_dates_recursive d.dumpJson = d.dumpPy := by
  simp [Demographics.dumpJson, Demographics.dumpPy, parseField_unregistered, datetimeKeys,
    parseField_dob d.dob h, decode_name]

/-- An encoded contacts section decodes to itself. -/
theorem decode_contacts (c : ContactInfo) :
    parse_dates_recursive c.dump = c.dump := by
  simp [ContactInfo.dump, parseField_unregistered, datetimeKeys]

/-- What decoding actually restores of an encoded condition: `recordedAt` is
    re-hydrated (it is in the registry), but `onset` is *not* registered, so a
    present onset date stays its ISO string. -/
def Condition.decoded (c : Condition) : JVal :=
  .obj [("id", .str c.id), ("code", jOptStr c.code), ("system", jOptStr c.system),
        ("description", .str c.description),
        ("onset", c.onset.elim .null (fun d => .str d.toIso)),
        ("status", .str c.status), ("recordedAt", .datetime c.recordedAt),
        ("encounterId", jOptStr c.encounterId)]

theorem decode_condition (c : Condition) (h : c.recordedAt.Valid) :
    parse_dates_recursive c.dumpJson = c.decoded := by
  have hrec := parseField_datetime "recordedAt" (by simp [datetimeKeys]) c.recordedAt h
  cases honset : c.onset with
  | none => simp [Condition.dumpJson, Condition.decoded, honset, parseField_unregistered,
      datetimeKeys, hrec]
  | some d => simp [Condition.dumpJson, Condition.decoded, honset, parseField_unregistered,
      datetimeKeys, hrec]

theorem decode_conditions (cs : List Condition) (h : ∀ c ∈ cs, c.recordedAt.Valid) :
    parseItems (cs.map Condition.dumpJson) = cs.map Condition.decoded := by
  induction cs with
  | nil => simp
  | cons c rest ih =>
    simp only [List.map_cons, parseItems_cons]
    rw [decode_condition c (h c (by simp)), ih (fun x hx => h x (by simp [hx]))]

/-- A dict of opaque string values with no registered key passes through. -/
theorem parseFields_opaque (rv : List (String × String))
    (h : ∀ kv ∈ rv, kv.1 ≠ "dob" ∧ kv.1 ∉ datetimeKeys) :
    parseFields (rv.map (fun kv => (kv.1, JVal.str kv.2))) =
      rv.map (fun kv => (kv.1, JVal.str kv.2)) := by
  induction rv with
  | nil => simp
  | cons kv rest ih =>
    simp only [List.map_cons, parseFields_cons]
    rw [parseField_unregistered kv.1 _ (h kv (by simp)).1 (h kv (by simp)).2]
    simp [ih (fun x hx => h x (by simp [hx]))]

/-- An encoded meta section decodes to itself, provided the opaque
    `replicaVector` uses no key from the date registry. -/
theorem decode_meta (m : MetaInfo)
    (h : ∀ kv ∈ m.replicaVector, kv.1 ≠ "dob" ∧ kv.1 ∉ datetimeKeys) :
    parse_dates_recursive m.dump = m.dump := by
  simp [MetaInfo.dump, parseField_unregistered, datetimeKeys, parseFields_opaque _ h]

/-! ## Claim C1 — codec round-trip -/

/-- Documents whose date-valued fields are representable and whose opaque
    `replicaVector` does not collide with the date registry. -/
def Patient.WellFormed (p : Patient) : Prop :=
  p.demographics.dob.Valid ∧
    (∀ c ∈ p.conditions, c.recordedAt.Valid) ∧
    (∀ kv ∈ p.meta.replicaVector, kv.1 ≠ "dob" ∧ kv.1 ∉ datetimeKeys)

instance (p : Patient) : Decidable p.WellFormed := by
  unfold Patient.WellFormed; infer_instance

/-- The round-trip property as the specification states it: decoding the
    encoded wire message restores every schema-flexible section to its
    `mode='python'` form, with an absent contacts section absent (`None`). -/
def RoundTripsExactly (p : Patient) : Prop :=
  decode_sections (patient_to_proto p) = patient_sections_py p

/-- A sparse but fully legal document: no contacts section, one condition
    with an onset date. -/
def exC1sparse : Patient where
  id := 7
  version := 1
  lastUpdated := ⟨⟨2026, 1, 25⟩, 10, 42, 31⟩
  identity := { patientId := "P-001" }
  demographics := { name := { given := "Jane", family := "Doe" }, dob := ⟨1990, 1, 15⟩ }
  contacts := none
  conditions := [{ id := "c-1", description := "flu", onset := some ⟨2020, 3, 4⟩,
                   recordedAt := ⟨⟨2026, 1, 25⟩, 10, 42, 31⟩ }]
  allergies := []
  meta := { sourceHospital := "HOSP-A" }
  created_at := ⟨⟨2026, 1, 25⟩, 10, 42, 31⟩
  updated_at := ⟨⟨2026, 1, 25⟩, 10, 42, 31⟩

/-- C1, counterexample: the claim `decode(encode(doc)) == doc` with absent
    optional fields staying absent is FALSE. For `exC1sparse` the absent
    contacts section comes back as an *empty map* (the `else Struct()` branch
    of `patient_to_proto`), not as absent. -/
theorem C1_roundtrip_counterexample :
    (decode_sections (patient_to_proto exC1sparse)).contacts = JVal.obj [] ∧
    (patient_sections_py exC1sparse).contacts = JVal.null ∧
    ¬ RoundTripsExactly exC1sparse := by
  have e1 : (decode_sections (patient_to_proto exC1sparse)).contacts = JVal.obj [] := by
    simp [decode_sections, patient_to_proto, exC1sparse]
  refine ⟨e1, rfl, fun h => ?_⟩
  have hc := congrArg DecodedSections.contacts h
  rw [e1] at hc
  simp [patient_sections_py, exC1sparse] at hc

/-- C1, amended: decoding the encoded message restores `identity`,
    `demographics` and `meta` field-for-field (dates re-hydrated), and a
    present contacts section field-for-field; but an absent contacts section
    comes back as an empty map rather than absent, and in each condition the
    `onset` date comes back as its ISO string (only `recordedAt` is in the
    date registry), all other condition fields restored. -/
theorem C1_roundtrip_amended (p : Patient) (h : p.WellFormed) :
    (decode_sections (patient_to_proto p)).identity = p.identity.dump
    ∧ (decode_sections (patient_to_proto p)).demographics = p.demographics.dumpPy
    ∧ (decode_sections (patient_to_proto p)).meta = p.meta.dump
    ∧ (∀ c, p.contacts = some c → (decode_sections (patient_to_proto p)).contacts = c.dump)
    ∧ (p.contacts = none → (decode_sections (patient_to_proto p)).contacts = JVal.obj [])
    ∧ (decode_sections (patient_to_proto p)).conditions =
        .arr (p.conditions.map Condition.decoded) := by
  obtain ⟨hdob, hrec, hrv⟩ := h
  refine ⟨?_, ?_, ?_, ?_, ?_, ?_⟩
  · simp [decode_sections, patient_to_proto, decode_identity]
  · simp [decode_sections, patient_to_proto, decode_demographics p.demographics hdob]
  · simp [decode_sections, patient_to_proto, decode_meta p.meta hrv]
  · intro c hc
    simp [decode_sections, patient_to_proto, hc, decode_contacts]
  · intro hc
    simp [decode_sections, patient_to_proto, hc]
  · simp [decode_sections, patient_to_proto, decode_conditions p.conditions hrec]

/-- A fully populated document for exercising `C1_roundtrip_amended`. -/
def exC1full : Patient where
  id := 8
  version := 1
  lastUpdated := ⟨⟨2026, 1, 25⟩, 10, 42, 31⟩
  identity := { patientId := "P-002", mrn := some "HOSP-A-123456" }
  demographics := { name := { given := "Ada", family := "Byron" }, dob := ⟨1984, 3, 12⟩,
                    sexAtBirth := some "female", genderIdentity := some "female" }
  contacts := some { address := some "Helsinki, FI", phone := some "+358", email := none }
  conditions := [{ id := "c-2", code := some "J10", system := some "ICD-10",
                   description := "influenza", onset := some ⟨2020, 3, 4⟩,
                   recordedAt := ⟨⟨2026, 1, 25⟩, 10, 42, 31⟩ }]
  allergies := []
  meta := { sourceHospital := "HOSP-A", replicaVector := [("HOSP-A", "3")] }
  created_at := ⟨⟨2026, 1, 25⟩, 10, 42, 31⟩
  updated_at := ⟨⟨2026, 1, 25⟩, 10, 42, 31⟩

theorem C1_roundtrip_amended_witness :
    exC1full.WellFormed ∧
      ((decode_sections (patient_to_proto exC1full)).identity = exC1full.identity.dump
      ∧ (decode_sections (patient_to_proto exC1full)).demographics =
          exC1full.demographics.dumpPy
      ∧ (decode_sections (patient_to_proto exC1full)).meta = exC1full.meta.dump
      ∧ (∀ c, exC1full.contacts = some c →
          (decode_sections (patient_to_proto exC1full)).contacts = c.dump)
      ∧ (exC1full.contacts = none →
          (decode_sections (patient_to_proto exC1full)).contacts = JVal.obj [])
      ∧ (decode_sections (patient_to_proto exC1full)).conditions =
          .arr (exC1full.conditions.map Condition.decoded)) :=
  ⟨by decide, C1_roundtrip_amended exC1full (by decide)⟩

/-! ## Python exceptions and pydantic model construction

`pydantic.ValidationError` subclasses `ValueError`; `KeyError` does not.
This distinction drives the `except ValueError` / `except Exception`
branches in `grpc_server.py` and `main.py`. -/

inductive PyErr where
  | validationError (msg : String)
  | keyError (key : String)
deriving DecidableEq, Repr

/-- Whether `except ValueError` catches this exception. -/
def PyErr.isValueError : PyErr → Bool
  | .validationError _ => true
  | .keyError _ => false

/-- Pydantic construction `Patient(**kwargs)` as `create_patient` performs it
    (`crud_service.py` line 18). The kwargs are exactly the keys of
    `PatientCreate.model_dump()`: `identity`, `demographics`, `contacts` and
    `sourceHospital`. `sourceHospital` matches no `Patient` field, so pydantic
    ignores it (default `extra` behaviour); `meta`, a required `Patient` field
    with no default, is never supplied, so construction raises a
    `ValidationError` — the `metaSupplied` parameter records that absence
    explicitly. Defaults from `models.py`: `version = 1`, fresh `id`, and the
    three timestamp `default_factory=datetime.now` calls (one clock reading,
    `now`, stands for all three; construction never gets that far anyway). -/
def Patient.ofCreateKwargs (identity : IdentityInfo) (demographics : Demographics)
    (contacts : Option ContactInfo) (metaSupplied : Option MetaInfo)
    (freshId : Nat) (now : PDateTime) : Except PyErr Patient :=
  match metaSupplied with
  | none => .error (.validationError "meta: Field required")
  | some m => .ok { id := freshId, version := 1, lastUpdated := now,
                    identity := identity, demographics := demographics,
                    contacts := contacts, conditions := [], allergies := [],
                    meta := m, created_at := now, updated_at := now }

/-! ## The repository and its operations (`crud_service.py`)

The Mongo collection is modelled as a list of stored documents; Beanie's
`find_one(Patient.id == uuid)` is first-match lookup. -/

abbrev Repo := List Patient

def find_one_by_id (repo : Repo) (uuid : Nat) : Option Patient :=
  repo.find? (fun p => p.id == uuid)

/-- Models `crud_service.create_patient`: builds `Patient(**patient.model_dump())`
    and inserts it. There is no duplicate-`patientId` existence check, and —
    because `PatientCreate` carries `sourceHospital` where `Patient` requires
    `meta` — the construction itself always raises. -/
def create_patient (patient : PatientCreate) (freshId : Nat) (now : PDateTime)
    (repo : Repo) : Except PyErr (Patient × Repo) :=
  match Patient.ofCreateKwargs patient.identity patient.demographics
      patient.contacts none freshId now with
  | .error e => .error e
  | .ok p => .ok (p, repo ++ [p])

/-- Whether `model_dump(exclude_unset=True)` produced an empty dict: no field of the
    update was supplied. -/
def PatientUpdate.isEmptyDump (u : PatientUpdate) : Bool :=
  u.demographics.isNone && u.contacts.isNone && u.encounters.isNone &&
    u.conditions.isNone && u.allergies.isNone && u.medications.isNone &&
    u.consents.isNone

/-- Models `patient.set(update_data)`: merges exactly the supplied fields into the
    stored document, plus the refreshed `updated_at` that `update_patient`
    adds to `update_data`. The `version` and `lastUpdated` fields are never
    touched. Supplied `encounters` / `medications` / `consents` keys have no
    counterpart field on the `Patient` document, so they change none of its
    fields (the raw `$set` writes keys invisible to the typed model). -/
def Patient.applySet (p : Patient) (u : PatientUpdate) (now : PDateTime) : Patient :=
  { p with
    demographics := u.demographics.getD p.demographics,
    contacts := match u.contacts with
      | some c => some c
      | none => p.contacts,
    conditions := u.conditions.getD p.conditions,
    allergies := u.allergies.getD p.allergies,
    updated_at := now }

/-- Models `crud_service.update_patient` (lines 46–72): find, no-op on an empty
    dump, otherwise merge the supplied fields and persist. Returns the
    (possibly updated) document and the repository state after the call. -/
def update_patient (patient_uuid : Nat) (patient_update : PatientUpdate)
    (now : PDateTime) (repo : Repo) : Option Patient × Repo :=
  match find_one_by_id repo patient_uuid with
  | none => (none, repo)
  | some patient =>
    if patient_update.isEmptyDump then (some patient, repo)
    else
      let patient' := patient.applySet patient_update now
      (some patient', repo.map (fun q => if q.id == patient_uuid then patient' else q))

/-! ## Pydantic validation of a decoded create payload

`CreatePatient` builds `PatientCreate(**patient_data)` from the decoded dict;
pydantic validates required/optional fields and coerces ISO strings to dates
(`parse_dates_recursive` normally did that already). A failure raises
`ValidationError`, a `ValueError` subclass. -/

def jLookup (fields : List (String × JVal)) (k : String) : Option JVal :=
  (fields.find? (fun kv => kv.1 == k)).map (fun kv => kv.2)

def vRequiredStr : Option JVal → Except PyErr String
  | some (.str s) => .ok s
  | some _ => .error (.validationError "str type expected")
  | none => .error (.validationError "Field required")

def vOptionalStr : Option JVal → Except PyErr (Option String)
  | none => .ok none
  | some .null => .ok none
  | some (.str s) => .ok (some s)
  | some _ => .error (.validationError "str type expected")

def vBoolDefaultFalse : Option JVal → Except PyErr Bool
  | none => .ok false
  | some (.bool b) => .ok b
  | some _ => .error (.validationError "bool type expected")

def vRequiredDate : Option JVal → Except PyErr PDate
  | some (.date d) => .ok d
  | some (.str s) =>
    match PDate.fromIso s with
    | some d => .ok d
    | none => .error (.validationError "invalid date format")
  | some _ => .error (.validationError "date type expected")
  | none => .error (.validationError "Field required")

def vIdentity : Option JVal → Except PyErr IdentityInfo
  | some (.obj fs) => do
    let patientId ← vRequiredStr (jLookup fs "patientId")
    let mrn ← vOptionalStr (jLookup fs "mrn")
    let nationalId ← vOptionalStr (jLookup fs "nationalId")
    .ok { patientId, mrn, nationalId }
  | some _ => .error (.validationError "IdentityInfo expected")
  | none => .error (.validationError "Field required")

def vName : Option JVal → Except PyErr NameInfo
  | some (.obj fs) => do
    let given ← vRequiredStr (jLookup fs "given")
    let family ← vRequiredStr (jLookup fs "family")
    .ok { given, family }
  | some _ => .error (.validationError "NameInfo expected")
  | none => .error (.validationError "Field required")

def vDemographics : Option JVal → Except PyErr Demographics
  | some (.obj fs) => do
    let name ← vName (jLookup fs "name")
    let dob ← vRequiredDate (jLookup fs "dob")
    let sexAtBirth ← vOptionalStr (jLookup fs "sexAtBirth")
    let genderIdentity ← vOptionalStr (jLookup fs "genderIdentity")
    let deceased ← vBoolDefaultFalse (jLookup fs "deceased")
    .ok { name, dob, sexAtBirth, genderIdentity, deceased }
  | some _ => .error (.validationError "Demographics expected")
  | none => .error (.validationError "Field required")

def vContacts : Option JVal → Except PyErr (Option ContactInfo)
  | none => .ok none
  | some .null => .ok none
  | some (.obj fs) => do
    let address ← vOptionalStr (jLookup fs "address")
    let phone ← vOptionalStr (jLookup fs "phone")
    let email ← vOptionalStr (jLookup fs "email")
    .ok (some { address, phone, email })
  | some _ => .error (.validationError "ContactInfo expected")

/-- Models `PatientCreate(**patient_data)` on the decoded payload dict. -/
def validatePatientCreate : JVal → Except PyErr PatientCreate
  | .obj fs => do
    let identity ← vIdentity (jLookup fs "identity")
    let demographics ← vDemographics (jLookup fs "demographics")
    let contacts ← vContacts (jLookup fs "contacts")
    let sourceHospital ← vRequiredStr (jLookup fs "sourceHospital")
    .ok { identity, demographics, contacts, sourceHospital }
  | _ => .error (.validationError "mapping expected")

/-! ## The RPC service handler (`grpc_server.py`) -/

inductive StatusCode where
  | ok
  | invalidArgument
  | notFound
  | alreadyExists
  | internal
deriving DecidableEq, Repr

structure CreateRpcReply where
  status : StatusCode
  patient : Option Patient
deriving DecidableEq, Repr

/-- Models `EhrServiceServicer.CreatePatient` (lines 100–128): decode the struct,
    re-hydrate dates, validate, store. The `except ValueError` arm — written
    for the duplicate-patientId case — answers `ALREADY_EXISTS`; any other
    exception answers `INTERNAL`. -/
def CreatePatient_rpc (patientData : JVal) (freshId : Nat) (now : PDateTime)
    (repo : Repo) : CreateRpcReply × Repo :=
  match validatePatientCreate (parse_dates_recursive patientData) with
  | .error _ => ({ status := .alreadyExists, patient := none }, repo)
  | .ok patient_create =>
    match create_patient patient_create freshId now repo with
    | .error e =>
      if e.isValueError then ({ status := .alreadyExists, patient := none }, repo)
      else ({ status := .internal, patient := none }, repo)
    | .ok (new_patient, repo') => ({ status := .ok, patient := some new_patient }, repo')

/-- Models `GetAllPatients` pagination inputs (lines 162–163):
    `skip = request.skip if request.skip > 0 else 0`. -/
def clamp_skip (skip : Int) : Int := if skip > 0 then skip else 0

/-- Models `limit = request.limit if request.limit > 0 else 100`. -/
def clamp_limit (limit : Int) : Int := if limit > 0 then limit else 100

/-! ## Auth gate and gateway routes (`auth/auth.py`, `api-gateway-service/main.py`) -/

/-- The verified JWT payload (`routes.py` issues `sub`, `role`, `patient_uuid`;
    `patient_uuid` is JSON null for doctors). -/
structure TokenPayload where
  sub : String
  role : String
  patient_uuid : Option String
deriving DecidableEq, Repr

/-- Models `auth.require_doctor`: passes iff the verified role is `doctor`. -/
def require_doctor (user : TokenPayload) : Bool := user.role == "doctor"

/-- Models `auth.require_doctor_or_patient`: passes iff the role is one of the two. -/
def require_doctor_or_patient (user : TokenPayload) : Bool :=
  user.role == "doctor" || user.role == "patient"

/-- Outcome of `GET /patients/{patient_uuid}` up to the backend boundary. -/
inductive GetPatientOutcome where
  | forbiddenRole
  | forbiddenCrossPatient
  | backendCall (uuid : String)
deriving DecidableEq, Repr

/-- Models `main.get_patient` (lines 92–125): the role dependency rejects unknown
    roles with 403; then a patient-role caller whose bound `patient_uuid`
    differs from the requested one gets 403 "Access denied" — before the
    `GrpcClient` block is entered, so no backend call happens; otherwise the
    backend is called with the requested uuid. -/
def gw_get_patient (user : TokenPayload) (patient_uuid : String) : GetPatientOutcome :=
  if ¬ require_doctor_or_patient user then .forbiddenRole
  else if user.role == "patient" && user.patient_uuid != some patient_uuid then
    .forbiddenCrossPatient
  else .backendCall patient_uuid

/-- Models `main.create_patient`'s error mapping (lines 80–89): INVALID_ARGUMENT →
    400, ALREADY_EXISTS → 409, anything else (including any non-RPC
    exception) → 500. -/
def gw_create_error_to_http : StatusCode → Nat
  | .invalidArgument => 400
  | .alreadyExists => 409
  | _ => 500

/-- The flat `CreatePatientRequest` the gateway's `GrpcClient.create_patient`
    still builds (`api-gateway-service/grpc_client.py` lines 50–63) — a
    leftover of an earlier flat patient schema. Field values are kept as the
    dynamic values the client would read. -/
structure LegacyCreateRequest where
  patient_id : JVal
  name : JVal
  birth_date : JVal
  height : JVal
  weight : JVal
  blood_type : JVal
  diagnosis : JVal
deriving Repr

/-- Python `d[k]` on a dict: `KeyError` when the key is absent. -/
def pyDictGet (d : List (String × JVal)) (k : String) : Except PyErr JVal :=
  match jLookup d k with
  | some v => .ok v
  | none => .error (.keyError k)

/-- Models `GrpcClient.create_patient(patient_data)`: reads the flat keys of the old
    schema from the dict. (`birth_date` would additionally need
    `.isoformat()` and `blood_type` a `BLOOD_TYPE_TO_PROTO` lookup; the first
    missing key already raises, so the raw values are kept.) -/
def gw_client_create_patient (patient_data : List (String × JVal)) :
    Except PyErr LegacyCreateRequest := do
  let patient_id ← pyDictGet patient_data "patient_id"
  let name ← pyDictGet patient_data "name"
  let birth_date ← pyDictGet patient_data "birth_date"
  let height ← pyDictGet patient_data "height"
  let weight ← pyDictGet patient_data "weight"
  let blood_type ← pyDictGet patient_data "blood_type"
  let diagnosis ← pyDictGet patient_data "diagnosis"
  .ok { patient_id, name, birth_date, height, weight, blood_type, diagnosis }

/-- Models `patient.model_dump()` in `main.create_patient` (line 77): the gateway's
    `PatientCreate` has the nested sections, in declaration order, with
    `mode='python'` values. -/
def PatientCreate.gwDump (p : PatientCreate) : List (String × JVal) :=
  [("identity", p.identity.dump), ("demographics", p.demographics.dumpPy),
   ("contacts", p.contacts.elim .null ContactInfo.dump),
   ("sourceHospital", .str p.sourceHospital)]

/-- Models `POST /patients` (`main.py` lines 52–89), for a caller that already passed
    `require_doctor`: dump the body, hand it to the gRPC client, map the
    outcome. `backend` abstracts the RPC server reached through the stub; any
    exception before the call lands in `except Exception` → 500. -/
def gw_create_patient_route (body : PatientCreate)
    (backend : LegacyCreateRequest → StatusCode × Option Patient) : Nat × Option Patient :=
  match gw_client_create_patient body.gwDump with
  | .error _ => (500, none)
  | .ok req =>
    match backend req with
    | (.ok, p) => (201, p)
    | (code, _) => (gw_create_error_to_http code, none)

/-! ## Claim C2 — duplicate-identity handling on create -/

/-- C2: a create request whose `identity.patientId` equals the patientId of an
    already-stored document fails, surfaced as RPC `ALREADY_EXISTS`, and the
    repository — the already-stored document in particular — is left exactly
    as it was. (The proof does not even need the duplicate hypothesis: the
    `ALREADY_EXISTS` answer comes from the `except ValueError` arm catching
    the `meta`-field `ValidationError` that every create raises — see C4 —
    not from a duplicate check; the observables the claim names still hold.) -/
theorem C2_duplicate_create_already_exists (patientData : JVal) (freshId : Nat)
    (now : PDateTime) (repo : Repo) (pc : PatientCreate) (p : Patient)
    (hval : validatePatientCreate (parse_dates_recursive patientData) = .ok pc)
    (hp : p ∈ repo) (hdup : p.identity.patientId = pc.identity.patientId) :
    (CreatePatient_rpc patientData freshId now repo).1.status = .alreadyExists
    ∧ (CreatePatient_rpc patientData freshId now repo).2 = repo
    ∧ p ∈ (CreatePatient_rpc patientData freshId now repo).2 := by
  unfold CreatePatient_rpc
  rw [hval]
  simp [create_patient, Patient.ofCreateKwargs, PyErr.isValueError, hp]

/-- A stored document and a create payload carrying the same patientId. -/
def exC2stored : Patient where
  id := 3
  version := 1
  lastUpdated := ⟨⟨2026, 1, 25⟩, 10, 42, 31⟩
  identity := { patientId := "P-001" }
  demographics := { name := { given := "Jane", family := "Doe" }, dob := ⟨1990, 1, 15⟩ }
  meta := { sourceHospital := "HOSP-A" }
  created_at := ⟨⟨2026, 1, 25⟩, 10, 42, 31⟩
  updated_at := ⟨⟨2026, 1, 25⟩, 10, 42, 31⟩

def exC2payload : JVal :=
  .obj [("identity", .obj [("patientId", .str "P-001")]),
        ("demographics", .obj [("name", .obj [("given", .str "Jane"), ("family", .str "Doe")]),
                               ("dob", .str "1990-01-15")]),
        ("sourceHospital", .str "HOSP-A")]

/-- The `PatientCreate` that `exC2payload` validates to. -/
def exC2pc : PatientCreate where
  identity := { patientId := "P-001" }
  demographics := { name := { given := "Jane", family := "Doe" }, dob := ⟨1990, 1, 15⟩ }
  sourceHospital := "HOSP-A"

/-- Evaluation of the decode step on the concrete C2 payload. -/
theorem exC2payload_parses :
    parse_dates_recursive exC2payload =
      .obj [("identity", .obj [("patientId", .str "P-001")]),
            ("demographics", .obj [("name", .obj [("given", .str "Jane"),
                                                  ("family", .str "Doe")]),
                                   ("dob", .date ⟨1990, 1, 15⟩)]),
            ("sourceHospital", .str "HOSP-A")] := by
  simp [exC2payload, parseField, datetimeKeys, PDate.fromIso, PDate.ofParts,
    PDate.daysInMonth]

theorem C2_duplicate_create_already_exists_witness :
    (CreatePatient_rpc exC2payload 99 ⟨⟨2026, 2, 1⟩, 9, 0, 0⟩ [exC2stored]).1.status =
      .alreadyExists
    ∧ (CreatePatient_rpc exC2payload 99 ⟨⟨2026, 2, 1⟩, 9, 0, 0⟩ [exC2stored]).2 = [exC2stored]
    ∧ exC2stored ∈ (CreatePatient_rpc exC2payload 99 ⟨⟨2026, 2, 1⟩, 9, 0, 0⟩ [exC2stored]).2 :=
  C2_duplicate_create_already_exists exC2payload 99 ⟨⟨2026, 2, 1⟩, 9, 0, 0⟩ [exC2stored]
    exC2pc exC2stored
    (by rw [exC2payload_parses]; rfl)
    (List.mem_cons_self exC2stored []) rfl

/-! ## Claim C3 — version increment on partial update -/

def exC3patient : Patient where
  id := 7
  version := 1
  lastUpdated := ⟨⟨2026, 1, 25⟩, 10, 42, 31⟩
  identity := { patientId := "P-001" }
  demographics := { name := { given := "Jane", family := "Doe" }, dob := ⟨1990, 1, 15⟩ }
  meta := { sourceHospital := "HOSP-A" }
  created_at := ⟨⟨2026, 1, 25⟩, 10, 42, 31⟩
  updated_at := ⟨⟨2026, 1, 25⟩, 10, 42, 31⟩

/-- A partial update supplying one field (new demographics). -/
def exC3update : PatientUpdate where
  demographics := some { name := { given := "Jane", family := "Doe" },
                         dob := ⟨1991, 1, 15⟩ }

/-- C3: `update_patient` never touches `version` (it only merges the supplied
    fields and refreshes `updated_at`), so one successful one-field update of
    a version-1 document returns version 1, not 1 + 1. The claim's no-op half
    does hold: an update supplying no fields returns the stored document
    unchanged. -/
theorem C3_version_not_incremented :
    ((update_patient 7 exC3update ⟨⟨2026, 2, 1⟩, 9, 0, 0⟩ [exC3patient]).1.map
        Patient.version = some 1)
    ∧ ¬ ((update_patient 7 exC3update ⟨⟨2026, 2, 1⟩, 9, 0, 0⟩ [exC3patient]).1.map
        Patient.version = some (1 + 1))
    ∧ (update_patient 7 {} ⟨⟨2026, 2, 1⟩, 9, 0, 0⟩ [exC3patient]).1 = some exC3patient := by
  refine ⟨by decide, by decide, by decide⟩

/-! ## Claim C4 — what create stamps on the stored document -/

/-- C4: `create_patient` can never insert anything. `PatientCreate` carries
    the caller's hospital as a top-level `sourceHospital` field, but nothing
    maps it to the `meta.sourceHospital` the `Patient` document requires:
    `Patient(**patient.model_dump())` is missing `meta` and raises a
    `ValidationError` on every input, so no document with `version = 1` and a
    stamped `meta.sourceHospital` is ever created. -/
theorem C4_create_never_inserts (patient : PatientCreate) (freshId : Nat)
    (now : PDateTime) (repo : Repo) :
    create_patient patient freshId now repo =
      .error (.validationError "meta: Field required") := by
  simp [create_patient, Patient.ofCreateKwargs]

/-! ## Claim C5 — POST /patients through the gateway -/

/-- C5: the gateway's gRPC client still builds the old flat
    `CreatePatientRequest` and immediately reads `patient_data['patient_id']`,
    a key the nested `PatientCreate.model_dump()` never contains. The
    resulting `KeyError` lands in the route's `except Exception` arm, so every
    well-formed, doctor-authorized POST /patients yields HTTP 500 and no
    document — never 201 — whatever the backend would have answered. -/
theorem C5_post_patients_always_500 (body : PatientCreate)
    (backend : LegacyCreateRequest → StatusCode × Option Patient) :
    gw_create_patient_route body backend = (500, none) := by
  simp [gw_create_patient_route, gw_client_create_patient, pyDictGet, jLookup,
    PatientCreate.gwDump, Bind.bind, Except.bind]

/-! ## Claim C7 — pagination clamping in the RPC handler -/

/-- C7, counterexample: nothing caps `limit` at 1000 — the handler passes any
    positive caller-supplied limit straight through to the repository. -/
theorem C7_limit_cap_counterexample :
    clamp_limit 1001 = 1001 ∧ (1000 : Int) < clamp_limit 1001 := by
  refine ⟨by decide, by decide⟩

/-- C7, amended: `skip` is floored at 0 (positive values pass through);
    `limit` falls back to the default 100 whenever the caller supplies a
    non-positive value and is always at least 1; but a positive limit is
    passed through unchanged — no fixed maximum is enforced. -/
theorem C7_pagination_amended (skip limit : Int) :
    0 ≤ clamp_skip skip
    ∧ (skip ≤ 0 → clamp_skip skip = 0)
    ∧ (0 < skip → clamp_skip skip = skip)
    ∧ 1 ≤ clamp_limit limit
    ∧ (limit ≤ 0 → clamp_limit limit = 100)
    ∧ (0 < limit → clamp_limit limit = limit) := by
  unfold clamp_skip clamp_limit
  refine ⟨?_, ?_, ?_, ?_, ?_, ?_⟩ <;> intros <;> split_ifs <;> omega

theorem C7_pagination_amended_witness :
    clamp_skip (-3) = 0 ∧ clamp_skip 4 = 4 ∧ clamp_limit (-7) = 100 ∧ clamp_limit 5 = 5 :=
  ⟨(C7_pagination_amended (-3) 1).2.1 (by decide),
   (C7_pagination_amended 4 1).2.2.1 (by decide),
   (C7_pagination_amended 0 (-7)).2.2.2.2.1 (by decide),
   (C7_pagination_amended 0 5).2.2.2.2.2 (by decide)⟩

/-! ## Claim C6 — the date re-hydration registry -/

/-- C6, counterexample: `onset` is NOT in `parse_dates_recursive`'s registry —
    a parseable onset date string comes through decoding still a string, not a
    calendar date. -/
theorem C6_onset_not_rehydrated :
    parse_dates_recursive (.obj [("onset", .str "2020-03-04")]) =
      .obj [("onset", .str "2020-03-04")]
    ∧ JVal.str "2020-03-04" ≠ JVal.date ⟨2020, 3, 4⟩ := by
  constructor
  · simp [parseField_unregistered, datetimeKeys]
  · intro h
    exact JVal.noConfusion h

/-- C6, amended: the registry maps `dob` to a calendar date and `start`,
    `end`, `recordedAt`, `grantedAt` to timestamps (`onset` is not
    registered); an unregistered field's string value passes through
    unchanged, and so does a registered field's string that fails to parse —
    decoding itself never fails. -/
theorem C6_registry_amended :
    (∀ d : PDate, d.Valid →
      parse_dates_recursive (.obj [("dob", .str d.toIso)]) = .obj [("dob", .date d)])
    ∧ (∀ k, k ∈ datetimeKeys → ∀ t : PDateTime, t.Valid →
      parse_dates_recursive (.obj [(k, .str t.toIso)]) = .obj [(k, .datetime t)])
    ∧ (∀ k s, k ≠ "dob" → k ∉ datetimeKeys →
      parse_dates_recursive (.obj [(k, .str s)]) = .obj [(k, .str s)])
    ∧ (∀ s, PDate.fromIso s = none →
      parse_dates_recursive (.obj [("dob", .str s)]) = .obj [("dob", .str s)])
    ∧ (∀ k s, k ∈ datetimeKeys → PDateTime.fromIso s = none →
      parse_dates_recursive (.obj [(k, .str s)]) = .obj [(k, .str s)]) := by
  refine ⟨?_, ?_, ?_, ?_, ?_⟩
  · intro d hd
    simp [parseField_dob d hd]
  · intro k hk t ht
    simp [parseField_datetime k hk t ht]
  · intro k s h1 h2
    simp [parseField_unregistered k _ h1 h2]
  · intro s hs
    simp [parseField_dob_bad s hs]
  · intro k s hk hs
    simp [parseField_datetime_bad k hk s hs]

theorem C6_registry_amended_witness :
    parse_dates_recursive (.obj [("dob", .str (PDate.toIso ⟨1990, 1, 15⟩))]) =
      .obj [("dob", .date ⟨1990, 1, 15⟩)]
    ∧ parse_dates_recursive
        (.obj [("recordedAt", .str (PDateTime.toIso ⟨⟨2026, 1, 25⟩, 10, 42, 31⟩))]) =
      .obj [("recordedAt", .datetime ⟨⟨2026, 1, 25⟩, 10, 42, 31⟩)]
    ∧ parse_dates_recursive (.obj [("status", .str "active")]) =
      .obj [("status", .str "active")]
    ∧ parse_dates_recursive (.obj [("dob", .str "not-a-date")]) =
      .obj [("dob", .str "not-a-date")]
    ∧ parse_dates_recursive (.obj [("start", .str "not-a-date")]) =
      .obj [("start", .str "not-a-date")] :=
  ⟨C6_registry_amended.1 ⟨1990, 1, 15⟩ (by decide),
   C6_registry_amended.2.1 "recordedAt" (by decide) ⟨⟨2026, 1, 25⟩, 10, 42, 31⟩ (by decide),
   C6_registry_amended.2.2.1 "status" "active" (by decide) (by decide),
   C6_registry_amended.2.2.2.1 "not-a-date" (by decide),
   C6_registry_amended.2.2.2.2 "start" "not-a-date" (by decide) (by decide)⟩

/-! ## Claim C8 — patient-scoped read authorization -/

/-- C8: a `patient`-role caller bound to id `x` asking for a different id `y`
    is rejected with 403 before the gateway's `GrpcClient` block runs (the
    `forbiddenCrossPatient` outcome precedes any backend or repository call);
    a `doctor`-role caller is not subject to the check and proceeds to the
    backend. -/
theorem C8_patient_scoped_get (user : TokenPayload) (x y : String) :
    (user.role = "patient" → user.patient_uuid = some x → x ≠ y →
      gw_get_patient user y = .forbiddenCrossPatient)
    ∧ (user.role = "doctor" → gw_get_patient user y = .backendCall y) := by
  constructor
  · intro hrole hbound hxy
    simp [gw_get_patient, require_doctor_or_patient, hrole, hbound, hxy]
  · intro hrole
    simp [gw_get_patient, require_doctor_or_patient, hrole]

theorem C8_patient_scoped_get_witness :
    gw_get_patient { sub := "patient1", role := "patient", patient_uuid := some "U-1" } "U-2" =
      .forbiddenCrossPatient
    ∧ gw_get_patient { sub := "doctor1", role := "doctor", patient_uuid := none } "U-2" =
      .backendCall "U-2" :=
  ⟨(C8_patient_scoped_get _ "U-1" "U-2").1 rfl rfl (by decide),
   (C8_patient_scoped_get _ "U-1" "U-2").2 rfl⟩

/-! ## Claim C9 — frame property of a contacts-only update -/

/-- C9: a partial update supplying only the contacts section changes nothing
    but `contacts` and the refreshed `updated_at`: the returned document keeps
    the stored document's demographics, conditions, identity, allergies, meta,
    id, version, `lastUpdated` and `created_at` exactly. -/
theorem C9_contacts_only_update_frame (repo : Repo) (uuid : Nat) (c : ContactInfo)
    (now : PDateTime) (p' : Patient)
    (h : (update_patient uuid { contacts := some c } now repo).1 = some p') :
    ∃ p, find_one_by_id repo uuid = some p
      ∧ p'.demographics = p.demographics
      ∧ p'.conditions = p.conditions
      ∧ p'.identity = p.identity
      ∧ p'.allergies = p.allergies
      ∧ p'.meta = p.meta
      ∧ p'.id = p.id
      ∧ p'.version = p.version
      ∧ p'.lastUpdated = p.lastUpdated
      ∧ p'.created_at = p.created_at
      ∧ p'.contacts = some c
      ∧ p'.updated_at = now := by
  unfold update_patient at h
  cases hf : find_one_by_id repo uuid with
  | none => rw [hf] at h; simp at h
  | some p =>
    rw [hf] at h
    have hne : PatientUpdate.isEmptyDump { contacts := some c } = false := by
      simp [PatientUpdate.isEmptyDump]
    rw [hne] at h
    simp only [Bool.false_eq_true, if_false, Option.some.injEq] at h
    subst h
    exact ⟨p, rfl, by simp [Patient.applySet]⟩

def exC9patient : Patient where
  id := 9
  version := 3
  lastUpdated := ⟨⟨2026, 1, 25⟩, 10, 42, 31⟩
  identity := { patientId := "P-009" }
  demographics := { name := { given := "Sam", family := "Lee" }, dob := ⟨1975, 6, 2⟩ }
  contacts := some { phone := some "+100" }
  conditions := [{ id := "c-9", description := "asthma",
                   recordedAt := ⟨⟨2020, 5, 5⟩, 8, 0, 0⟩ }]
  meta := { sourceHospital := "HOSP-B" }
  created_at := ⟨⟨2020, 5, 5⟩, 8, 0, 0⟩
  updated_at := ⟨⟨2026, 1, 25⟩, 10, 42, 31⟩

theorem C9_contacts_only_update_frame_witness :
    ∃ p, find_one_by_id [exC9patient] 9 = some p
      ∧ (exC9patient.applySet { contacts := some { phone := some "+200" } }
            ⟨⟨2026, 3, 1⟩, 12, 0, 0⟩).demographics = p.demographics
      ∧ (exC9patient.applySet { contacts := some { phone := some "+200" } }
            ⟨⟨2026, 3, 1⟩, 12, 0, 0⟩).conditions = p.conditions
      ∧ (exC9patient.applySet { contacts := some { phone := some "+200" } }
            ⟨⟨2026, 3, 1⟩, 12, 0, 0⟩).identity = p.identity
      ∧ (exC9patient.applySet { contacts := some { phone := some "+200" } }
            ⟨⟨2026, 3, 1⟩, 12, 0, 0⟩).allergies = p.allergies
      ∧ (exC9patient.applySet { contacts := some { phone := some "+200" } }
            ⟨⟨2026, 3, 1⟩, 12, 0, 0⟩).meta = p.meta
      ∧ (exC9patient.applySet { contacts := some { phone := some "+200" } }
            ⟨⟨2026, 3, 1⟩, 12, 0, 0⟩).id = p.id
      ∧ (exC9patient.applySet { contacts := some { phone := some "+200" } }
            ⟨⟨2026, 3, 1⟩, 12, 0, 0⟩).version = p.version
      ∧ (exC9patient.applySet { contacts := some { phone := some "+200" } }
            ⟨⟨2026, 3, 1⟩, 12, 0, 0⟩).lastUpdated = p.lastUpdated
      ∧ (exC9patient.applySet { contacts := some { phone := some "+200" } }
            ⟨⟨2026, 3, 1⟩, 12, 0, 0⟩).created_at = p.created_at
      ∧ (exC9patient.applySet { contacts := some { phone := some "+200" } }
            ⟨⟨2026, 3, 1⟩, 12, 0, 0⟩).contacts = some { phone := some "+200" }
      ∧ (exC9patient.applySet { contacts := some { phone := some "+200" } }
            ⟨⟨2026, 3, 1⟩, 12, 0, 0⟩).updated_at = ⟨⟨2026, 3, 1⟩, 12, 0, 0⟩ :=
  C9_contacts_only_update_frame [exC9patient] 9 { phone := some "+200" }
    ⟨⟨2026, 3, 1⟩, 12, 0, 0⟩
    (exC9patient.applySet { contacts := some { phone := some "+200" } }
      ⟨⟨2026, 3, 1⟩, 12, 0, 0⟩) (by decide)

/-! ## Claim C10 — invalid create input surfaces as 409, not 400 -/

/-- C10: a `CreatePatient` payload that fails `PatientCreate` model validation
    raises a pydantic `ValidationError` — a `ValueError` — which the handler's
    `except ValueError` arm (written for duplicates) answers with
    `ALREADY_EXISTS`, never `INVALID_ARGUMENT`; the gateway maps
    `ALREADY_EXISTS` to HTTP 409 (while 400 is reserved for
    `INVALID_ARGUMENT`), so invalid create input surfaces as a duplicate. -/
theorem C10_invalid_create_surfaces_as_409 (patientData : JVal) (freshId : Nat)
    (now : PDateTime) (repo : Repo) (e : PyErr)
    (h : validatePatientCreate (parse_dates_recursive patientData) = .error e) :
    (CreatePatient_rpc patientData freshId now repo).1.status = .alreadyExists
    ∧ (CreatePatient_rpc patientData freshId now repo).1.status ≠ .invalidArgument
    ∧ gw_create_error_to_http .alreadyExists = 409
    ∧ gw_create_error_to_http .invalidArgument = 400 := by
  refine ⟨?_, ?_, rfl, rfl⟩ <;> simp [CreatePatient_rpc, h]

theorem C10_invalid_create_surfaces_as_409_witness :
    (CreatePatient_rpc (.obj []) 0 ⟨⟨2026, 1, 25⟩, 10, 42, 31⟩ []).1.status = .alreadyExists
    ∧ (CreatePatient_rpc (.obj []) 0 ⟨⟨2026, 1, 25⟩, 10, 42, 31⟩ []).1.status ≠ .invalidArgument
    ∧ gw_create_error_to_http .alreadyExists = 409
    ∧ gw_create_error_to_http .invalidArgument = 400 :=
  C10_invalid_create_surfaces_as_409 (.obj []) 0 ⟨⟨2026, 1, 25⟩, 10, 42, 31⟩ []
    (.validationError "Field required") (by rw [parse_obj, parseFields_nil]; rfl)
